import Mathlib

/-!
A shallow embedding of the rate-fetching and conversion client of
`src/currency_tracker.py` (class `CurrencyTracker`, plus the two GUI call
sites that wire it: `CurrencyTrackerGUI.refresh_rates` and
`CurrencyTrackerGUI.convert_currency`), together with theorems settling the
specification claims about it.

Modelling conventions:
* JSON values decoded by `response.json()` are modelled by the inductive
  `Json`; numbers are rationals (finite by construction — Python's `json`
  module can produce `NaN`/`Infinity`, which this model cannot express, so
  finiteness questions reduce to positivity here).
* The network environment is a function `HttpRequest → HttpResult`: the
  caller constructs a request (url, query params, timeout) exactly as the
  Python code does, and the environment answers with either a raised
  `requests.exceptions.RequestException` (constructor `exn`, covering DNS
  failure, connection refused, timeout, redirect loops) or a final HTTP
  response with a status code, a reason phrase and a body.
* `doRequest` models the statement sequence
  `response = requests.get(...)`, `response.raise_for_status()`,
  `data = response.json()`.  Every failure of that sequence raises a
  `requests.exceptions.RequestException`: transport errors from `get`,
  `HTTPError` from `raise_for_status` — which raises exactly for
  400 ≤ status < 600, not for other non-2xx statuses — and
  `requests.exceptions.JSONDecodeError` from `.json()` on an undecodable
  body (a `RequestException` subclass since requests 2.27).
* Python subscription `data[key]` is modelled by `pySubscript`, returning
  the `str(e)` of the `KeyError`/`TypeError` it raises on failure.
* Exceptions caught by the `except` clauses become `Except.error` values;
  the classified error strings are produced exactly as the f-strings in the
  source do ("Network error: ...", "Error: ...", "Conversion error: ...").
-/

/-- A decoded JSON value, as returned by `response.json()`. -/
inductive Json where
  | null : Json
  | bool (b : Bool) : Json
  | num (q : ℚ) : Json
  | str (s : String) : Json
  | arr (elems : List Json) : Json
  | obj (fields : List (String × Json)) : Json

/-- Python `dict` lookup for a decoded JSON object; on duplicate keys the
last wins, as in `json.loads`. -/
def dictGet (fields : List (String × Json)) (key : String) : Option Json :=
  fields.foldl (fun acc kv => if kv.1 = key then some kv.2 else acc) none

/-- The string `str(KeyError(key))` in CPython: the `repr` of the missing key. -/
def keyErrorStr (key : String) : String :=
  "'" ++ key ++ "'"

/-- Python subscription `j[key]` with a string key: returns the value for
a dict, and otherwise the `str` of the `TypeError`/`KeyError` raised. -/
def pySubscript (j : Json) (key : String) : Except String Json :=
  match j with
  | .obj fields =>
    match dictGet fields key with
    | some v => .ok v
    | none => .error (keyErrorStr key)
  | .arr _ => .error "list indices must be integers or slices, not str"
  | .str _ => .error "string indices must be integers"
  | .null => .error "'NoneType' object is not subscriptable"
  | .bool _ => .error "'bool' object is not subscriptable"
  | .num _ => .error "'float' object is not subscriptable"

/-- A `requests.get` call as the client issues it. -/
structure HttpRequest where
  url : String
  params : List (String × String)
  timeout : Nat

/-- Outcome of one `requests.get` call: either the call raised a
`requests.exceptions.RequestException` carrying `str(e) = msg` (DNS
failure, connection refused, timeout, too many redirects), or a final
response arrived with a status code, reason phrase, and a body that is
either decodable JSON (`some j`) or not valid JSON (`none`). -/
inductive HttpResult where
  | exn (msg : String) : HttpResult
  | response (status : Nat) (reason : String) (body : Option Json) : HttpResult

/-- The message of the `requests.exceptions.HTTPError` that
`raise_for_status` raises for a 4xx/5xx status (url elided). -/
def httpErrorMsg (status : Nat) (reason : String) : String :=
  toString status ++
    (if status < 500 then " Client Error: " else " Server Error: ") ++ reason

/-- The `str` of the `requests.exceptions.JSONDecodeError` raised by
`response.json()` on a body that is not valid JSON. -/
def jsonDecodeErrMsg : String :=
  "Expecting value: line 1 column 1 (char 0)"

/-- Models `response = requests.get(...)`, `response.raise_for_status()`,
`data = response.json()`.  `Except.error msg` means this sequence raised a
`requests.exceptions.RequestException` with `str(e) = msg`:
`raise_for_status` raises exactly for 400 ≤ status < 600, and `.json()`
raises `requests.exceptions.JSONDecodeError` (a `RequestException`) on an
undecodable body. -/
def doRequest (r : HttpResult) : Except String Json :=
  match r with
  | .exn msg => .error msg
  | .response status _reason none =>
    if 400 ≤ status ∧ status < 600 then .error (httpErrorMsg status _reason)
    else .error jsonDecodeErrMsg
  | .response status reason (some j) =>
    if 400 ≤ status ∧ status < 600 then .error (httpErrorMsg status reason)
    else .ok j

/-- The dict built on success of `get_exchange_rates`:
`{'base': data['base'], 'date': data['date'], 'timestamp': now,
'rates': data['rates']}`.  The code copies the JSON values verbatim, so the
fields are `Json` except the locally stamped timestamp. -/
structure RatesSnapshot where
  base : Json
  date : Json
  timestamp : String
  rates : Json

/-- The `CurrencyTracker` instance state set up by `__init__`. -/
structure CurrencyTracker where
  api_url : String
  base_currency : String
  history : List RatesSnapshot

/-- State set by `CurrencyTracker.__init__`. -/
def CurrencyTracker.init : CurrencyTracker :=
  { api_url := "https://api.frankfurter.app/latest"
  , base_currency := "USD"
  , history := [] }

/-- The request `get_exchange_rates` issues:
`requests.get(self.api_url, params={"from": base}, timeout=10)`. -/
def ratesRequest (api_url base : String) : HttpRequest :=
  { url := api_url, params := [("from", base)], timeout := 10 }

/-- Builds the snapshot dict from `data`, evaluating the subscriptions
`data['base']`, `data['date']`, `data['rates']` in source order; the first
failing one determines the raised exception. -/
def buildSnapshot (now : String) (data : Json) : Except String RatesSnapshot :=
  match pySubscript data "base" with
  | .error e => .error e
  | .ok b =>
    match pySubscript data "date" with
    | .error e => .error e
    | .ok d =>
      match pySubscript data "rates" with
      | .error e => .error e
      | .ok r => .ok { base := b, date := d, timestamp := now, rates := r }

/-- The body of `get_exchange_rates` as a function of the only instance
field it reads (`self.api_url`), the argument `base`, the current local
time string `now` (for `datetime.now().strftime(...)`), and the network
environment.  A `requests.exceptions.RequestException` anywhere in the
request sequence is caught by the first handler and returned as
`(None, "Network error: " + str(e))`; any other exception (the
`KeyError`/`TypeError` from the dict subscriptions) is caught by the
second and returned as `(None, "Error: " + str(e))`. -/
def fetchRatesResult (api_url base now : String) (net : HttpRequest → HttpResult) :
    Option RatesSnapshot × Option String :=
  match doRequest (net (ratesRequest api_url base)) with
  | .error msg => (none, some ("Network error: " ++ msg))
  | .ok data =>
    match buildSnapshot now data with
    | .error e => (none, some ("Error: " ++ e))
    | .ok snap => (some snap, none)

/-- Method `CurrencyTracker.get_exchange_rates`.  The method assigns to no
attribute of `self`, so the instance state it returns is the one it
received. -/
def CurrencyTracker.get_exchange_rates (t : CurrencyTracker) (base now : String)
    (net : HttpRequest → HttpResult) :
    CurrencyTracker × (Option RatesSnapshot × Option String) :=
  (t, fetchRatesResult t.api_url base now net)

/-- The request `get_conversion` issues:
`requests.get(f"https://api.frankfurter.app/latest?amount={amount}&from={from_currency}&to={to_currency}", timeout=10)`. -/
def conversionRequest (amount : ℚ) (from_currency to_currency : String) : HttpRequest :=
  { url := "https://api.frankfurter.app/latest?amount=" ++ toString amount ++
      "&from=" ++ from_currency ++ "&to=" ++ to_currency
  , params := []
  , timeout := 10 }

/-- The `try` block of `get_conversion`: the request sequence followed by
`converted_amount = data['rates'][to_currency]`; `Except.error` is any
exception raised inside the block. -/
def conversionAttempt (amount : ℚ) (from_currency to_currency : String)
    (net : HttpRequest → HttpResult) : Except String Json :=
  match doRequest (net (conversionRequest amount from_currency to_currency)) with
  | .error e => .error e
  | .ok data =>
    match pySubscript data "rates" with
    | .error e => .error e
    | .ok r => pySubscript r to_currency

/-- Method `CurrencyTracker.get_conversion`.  Its single `except Exception`
handler catches every exception of the request sequence and of
`data['rates'][to_currency]` alike and returns
`(None, "Conversion error: " + str(e))`. -/
def CurrencyTracker.get_conversion (t : CurrencyTracker) (amount : ℚ)
    (from_currency to_currency : String) (net : HttpRequest → HttpResult) :
    CurrencyTracker × (Option Json × Option String) :=
  match conversionAttempt amount from_currency to_currency net with
  | .error e => (t, (none, some ("Conversion error: " ++ e)))
  | .ok converted_amount => (t, (some converted_amount, none))

/-- Method `CurrencyTracker.save_to_history`: `self.history.append(rates_data)`. -/
def CurrencyTracker.save_to_history (t : CurrencyTracker) (rates_data : RatesSnapshot) :
    CurrencyTracker :=
  { t with history := t.history ++ [rates_data] }

/-- Python truthiness of the `error` string checked by `if error:` in the
GUI (None and the empty string are falsy). -/
def isTruthyStr : Option String → Bool
  | none => false
  | some s => s ≠ ""

/-- The client-state effect of `CurrencyTrackerGUI.refresh_rates`: fetch,
and only when the returned error is falsy, `save_to_history(rates_data)`.
On a truthy error the GUI returns early and the tracker is untouched.
When the error is falsy the source appends `rates_data` unconditionally;
`get_exchange_rates` then always returned `some` (the `none` arm below is
dead, as `get_exchange_rates_exclusive` proves). -/
def refresh_rates (t : CurrencyTracker) (base now : String)
    (net : HttpRequest → HttpResult) : CurrencyTracker × Option String :=
  match t.get_exchange_rates base now net with
  | (t', (rates_data, error)) =>
    if isTruthyStr error then (t', error)
    else
      match rates_data with
      | some rd => (t'.save_to_history rd, error)
      | none => (t', error)

/-- The observable outcome of `CurrencyTrackerGUI.convert_currency` (after
the amount text has parsed as a number). -/
inductive ConvertAction where
  | warningBox (msg : String) : ConvertAction
  | errorBox (msg : String) : ConvertAction
  | display (amount : ℚ) (result : Json) (from_curr to_curr : String) : ConvertAction

/-- Method `CurrencyTrackerGUI.convert_currency`: identical currencies are
rejected with a warning before `get_conversion` is ever called; a truthy
error is shown in an error box; otherwise the result is displayed. -/
def convert_currency (t : CurrencyTracker) (amount : ℚ) (from_curr to_curr : String)
    (net : HttpRequest → HttpResult) : ConvertAction :=
  if from_curr = to_curr then
    .warningBox "Please select different currencies"
  else
    match t.get_conversion amount from_curr to_curr net with
    | (_, (result, error)) =>
      if isTruthyStr error then .errorBox (error.getD "")
      else
        match result with
        | some r => .display amount r from_curr to_curr
        | none => .display amount .null from_curr to_curr

/-- One call of the fetch-and-record pipeline: the chosen base, the local
timestamp, and the network environment at that moment. -/
structure FetchCall where
  base : String
  now : String
  net : HttpRequest → HttpResult

/-- A sequence of `refresh_rates` invocations threaded through the
tracker state. -/
def runRefreshes (t : CurrencyTracker) (calls : List FetchCall) : CurrencyTracker :=
  calls.foldl (fun acc c => (refresh_rates acc c.base c.now c.net).1) t

/-- The snapshots of the successful calls of a sequence, in call order,
for a client with the given `api_url`. -/
def successSnapshots (api_url : String) (calls : List FetchCall) : List RatesSnapshot :=
  calls.filterMap (fun c => (fetchRatesResult api_url c.base c.now c.net).1)

/-- Tests that `p` is a literal prefix of `s` (stated on the character lists so that
it evaluates by kernel reduction). -/
def strHasPrefix (p s : String) : Bool :=
  p.data.isPrefixOf s.data

/-- Message classification: the `NetworkError` class of the spec taxonomy
is the `"Network error: "` prefix produced by `get_exchange_rates`'s
`RequestException` handler. -/
def isNetworkError (msg : String) : Bool :=
  strHasPrefix "Network error: " msg

/-- The `ParseError` class of the spec taxonomy is the `"Error: "` prefix
produced by `get_exchange_rates`'s generic `except Exception` handler. -/
def isParseError (msg : String) : Bool :=
  strHasPrefix "Error: " msg

/-- The `ConversionError` class of the spec taxonomy is the
`"Conversion error: "` prefix produced by `get_conversion`. -/
def isConversionError (msg : String) : Bool :=
  strHasPrefix "Conversion error: " msg

/-- All values of a rates mapping are (finite) positive numbers: the
argument is a JSON object and every field value is a positive rational. -/
def allRatesPositive : Json → Bool
  | .obj fields => fields.all (fun kv =>
      match kv.2 with
      | .num q => decide (0 < q)
      | _ => false)
  | _ => false

/-! ## Helper lemmas -/

theorem append_ne_nil (p m : String) (hp : p.length ≠ 0) : p ++ m ≠ "" := by
  intro h
  have h2 := congrArg String.length h
  rw [String.length_append] at h2
  have h3 : ("" : String).length = 0 := rfl
  omega

theorem fetchRatesResult_cases (api_url base now : String)
    (net : HttpRequest → HttpResult) :
    (∃ s, fetchRatesResult api_url base now net = (some s, none)) ∨
    (∃ m, fetchRatesResult api_url base now net = (none, some ("Network error: " ++ m))) ∨
    (∃ m, fetchRatesResult api_url base now net = (none, some ("Error: " ++ m))) := by
  cases hdo : doRequest (net (ratesRequest api_url base)) with
  | error msg => exact Or.inr (Or.inl ⟨msg, by simp [fetchRatesResult, hdo]⟩)
  | ok data =>
    cases hb : buildSnapshot now data with
    | error e => exact Or.inr (Or.inr ⟨e, by simp [fetchRatesResult, hdo, hb]⟩)
    | ok s => exact Or.inl ⟨s, by simp [fetchRatesResult, hdo, hb]⟩

theorem get_conversion_cases (t : CurrencyTracker) (a : ℚ) (fc tc : String)
    (net : HttpRequest → HttpResult) :
    (∃ v, (t.get_conversion a fc tc net).2 = (some v, none)) ∨
    (∃ m, (t.get_conversion a fc tc net).2 = (none, some ("Conversion error: " ++ m))) := by
  cases h : conversionAttempt a fc tc net with
  | error e => exact Or.inr ⟨e, by simp [CurrencyTracker.get_conversion, h]⟩
  | ok v => exact Or.inl ⟨v, by simp [CurrencyTracker.get_conversion, h]⟩

theorem refresh_rates_state (t : CurrencyTracker) (b n : String)
    (net : HttpRequest → HttpResult) :
    (refresh_rates t b n net).1.history
        = t.history ++ (fetchRatesResult t.api_url b n net).1.toList ∧
    (refresh_rates t b n net).1.api_url = t.api_url ∧
    (refresh_rates t b n net).1.base_currency = t.base_currency := by
  rcases fetchRatesResult_cases t.api_url b n net with ⟨s, h⟩ | ⟨m, h⟩ | ⟨m, h⟩
  · simp [refresh_rates, CurrencyTracker.get_exchange_rates, h, isTruthyStr,
      CurrencyTracker.save_to_history]
  · have hne : isTruthyStr (some ("Network error: " ++ m)) = true :=
      decide_eq_true (append_ne_nil "Network error: " m (by decide))
    simp [refresh_rates, CurrencyTracker.get_exchange_rates, h, hne]
  · have hne : isTruthyStr (some ("Error: " ++ m)) = true :=
      decide_eq_true (append_ne_nil "Error: " m (by decide))
    simp [refresh_rates, CurrencyTracker.get_exchange_rates, h, hne]

theorem runRefreshes_history (t : CurrencyTracker) (calls : List FetchCall) :
    (runRefreshes t calls).history = t.history ++ successSnapshots t.api_url calls := by
  induction calls generalizing t with
  | nil => simp [runRefreshes, successSnapshots]
  | cons c cs ih =>
    have hs := refresh_rates_state t c.base c.now c.net
    have step : runRefreshes t (c :: cs)
        = runRefreshes ((refresh_rates t c.base c.now c.net).1) cs := rfl
    rw [step, ih, hs.2.1, hs.1]
    simp only [successSnapshots, List.filterMap_cons, List.append_assoc]
    cases hfetch : (fetchRatesResult t.api_url c.base c.now c.net).1 <;> simp [hfetch]

/-! ## Claim theorems -/

/-- C1: for every input and every modelled provider/transport outcome,
`get_exchange_rates` and `get_conversion` each return exactly one of a
successful result or a classified error message — never both and never
neither.  (That neither operation lets a language-native exception escape
is the totality of the embedding: every exception the bodies can raise is
caught by the `except` clauses, which the two handler arms model.) -/
theorem exchange_and_conversion_exclusive :
    ∀ (t : CurrencyTracker) (base now : String) (net : HttpRequest → HttpResult)
      (amount : ℚ) (fc tc : String),
      (((t.get_exchange_rates base now net).2.1.isSome = true ∧
          (t.get_exchange_rates base now net).2.2 = none) ∨
        ((t.get_exchange_rates base now net).2.1 = none ∧
          (t.get_exchange_rates base now net).2.2.isSome = true)) ∧
      (((t.get_conversion amount fc tc net).2.1.isSome = true ∧
          (t.get_conversion amount fc tc net).2.2 = none) ∨
        ((t.get_conversion amount fc tc net).2.1 = none ∧
          (t.get_conversion amount fc tc net).2.2.isSome = true)) := by
  intro t base now net amount fc tc
  constructor
  · rcases fetchRatesResult_cases t.api_url base now net with ⟨s, h⟩ | ⟨m, h⟩ | ⟨m, h⟩ <;>
      simp [CurrencyTracker.get_exchange_rates, h]
  · rcases get_conversion_cases t amount fc tc net with ⟨v, h⟩ | ⟨m, h⟩ <;> simp [h]

/-- C4: across any sequence of fetch-and-record calls (the
`refresh_rates` wiring: `get_exchange_rates` followed by
`save_to_history` only when the error is falsy), the history grows by the
snapshots of exactly the successful calls, in call order; per call the
length grows by 1 on success (`toList` of `some` is one element) and by 0
on failure, and starting from the freshly constructed tracker the Nth
successful fetch's snapshot sits at index N-1. -/
theorem history_accumulates_successes :
    (∀ (t : CurrencyTracker) (calls : List FetchCall),
      (runRefreshes t calls).history = t.history ++ successSnapshots t.api_url calls) ∧
    (∀ (t : CurrencyTracker) (b n : String) (net : HttpRequest → HttpResult),
      (refresh_rates t b n net).1.history.length
        = t.history.length + (fetchRatesResult t.api_url b n net).1.toList.length) ∧
    (∀ (calls : List FetchCall) (i : ℕ),
      (runRefreshes CurrencyTracker.init calls).history[i]?
        = (successSnapshots CurrencyTracker.init.api_url calls)[i]?) := by
  refine ⟨runRefreshes_history, ?_, ?_⟩
  · intro t b n net
    rw [(refresh_rates_state t b n net).1]
    simp
  · intro calls i
    rw [runRefreshes_history CurrencyTracker.init calls]
    simp [CurrencyTracker.init]

/-- C9: `get_exchange_rates` does not mutate the client: the method body
assigns to no attribute of `self` (it only reads `self.api_url`), so the
instance state after any call — success or failure — is the state before
it; history is appended only by the separate `save_to_history` step. -/
theorem get_exchange_rates_no_mutation :
    ∀ (t : CurrencyTracker) (base now : String) (net : HttpRequest → HttpResult),
      (t.get_exchange_rates base now net).1 = t := by
  intro t base now net
  rfl

/-- C10: `save_to_history` appends its argument unconditionally — for
every snapshot value, produced by a successful fetch or not, the new
history is the old one with that value appended (length exactly +1) and
the other fields are untouched; the client performs no success check.
The only-on-success recording comes solely from the caller: the
`refresh_rates` wiring appends exactly the successful fetch's snapshot
(`toList` of the fetch result), nothing on error. -/
theorem save_to_history_unconditional :
    (∀ (t : CurrencyTracker) (v : RatesSnapshot),
      (t.save_to_history v).history = t.history ++ [v] ∧
      (t.save_to_history v).history.length = t.history.length + 1 ∧
      (t.save_to_history v).api_url = t.api_url ∧
      (t.save_to_history v).base_currency = t.base_currency) ∧
    (∀ (t : CurrencyTracker) (b n : String) (net : HttpRequest → HttpResult),
      (refresh_rates t b n net).1.history
        = t.history ++ ((t.get_exchange_rates b n net).2.1.toList)) := by
  constructor
  · intro t v
    refine ⟨rfl, ?_, rfl, rfl⟩
    simp [CurrencyTracker.save_to_history]
  · intro t b n net
    exact (refresh_rates_state t b n net).1

/-- A provider response body of the documented shape
`{"base":"USD","date":"2024-01-15","rates":{"EUR":0.92}}`. -/
def sampleBody : Json :=
  Json.obj [("base", Json.str "USD"), ("date", Json.str "2024-01-15"),
    ("rates", Json.obj [("EUR", Json.num (92/100))])]

/-- The snapshot `get_exchange_rates` builds from `sampleBody` with local
timestamp `"now"`. -/
def sampleSnapshot : RatesSnapshot :=
  { base := Json.str "USD", date := Json.str "2024-01-15",
    timestamp := "now", rates := Json.obj [("EUR", Json.num (92/100))] }

/-- C2 (counterexample): the claim says *any* non-2xx status yields a
`NetworkError` and no snapshot.  But the code's status check is
`raise_for_status`, which raises only for 400–599: a final `300 Multiple
Choices` response (a status requests does not auto-follow) whose body has
the expected shape produces a snapshot and no error, although
300 is not a 2xx status. -/
theorem status300_snapshot_counterexample :
    ¬ (200 ≤ 300 ∧ 300 ≤ 299) ∧
    (CurrencyTracker.init.get_exchange_rates "USD" "now"
        (fun _ => HttpResult.response 300 "Multiple Choices" (some sampleBody))).2
      = (some sampleSnapshot, none) :=
  ⟨by decide, rfl⟩

/-- C2 (amended): on any transport-level `RequestException` (DNS failure,
connection refused, timeout) the fetch returns no snapshot and a
`NetworkError` carrying the underlying message verbatim, and likewise for
every 4xx/5xx status — the statuses `raise_for_status` actually raises
for — with the `HTTPError` message; statuses outside 400–599 are not
treated as failures by status. -/
theorem network_error_classification :
    ∀ (t : CurrencyTracker) (base now msg reason : String) (status : ℕ)
      (body : Option Json),
      (t.get_exchange_rates base now (fun _ => HttpResult.exn msg)).2
        = (none, some ("Network error: " ++ msg)) ∧
      (400 ≤ status → status < 600 →
        (t.get_exchange_rates base now
            (fun _ => HttpResult.response status reason body)).2
          = (none, some ("Network error: " ++ httpErrorMsg status reason))) := by
  intro t base now msg reason status body
  refine ⟨rfl, ?_⟩
  intro h4 h6
  cases body <;>
    simp [CurrencyTracker.get_exchange_rates, fetchRatesResult, doRequest, h4, h6]

/-- Witness for the amended C2 theorem at a DNS-style failure and a
concrete 404 response. -/
theorem network_error_classification_witness :
    (400 ≤ 404 ∧ 404 < 600) ∧
    (CurrencyTracker.init.get_exchange_rates "USD" "now"
        (fun _ => HttpResult.response 404 "Not Found" none)).2
      = (none, some ("Network error: " ++ httpErrorMsg 404 "Not Found")) :=
  ⟨by decide,
    (network_error_classification CurrencyTracker.init "USD" "now"
      "Failed to resolve host" "Not Found" 404 none).2 (by decide) (by decide)⟩

/-- C3 (counterexample): the claim says every 2xx body that cannot be
parsed as the expected schema yields a `ParseError`.  A 200 response whose
body is not valid JSON at all makes `response.json()` raise
`requests.exceptions.JSONDecodeError`, which is a `RequestException`
(since requests 2.27), so the first handler classifies it as
`"Network error: ..."` — not the `"Error: ..."` (`ParseError`) class. -/
theorem undecodable_body_counterexample :
    (CurrencyTracker.init.get_exchange_rates "USD" "now"
        (fun _ => HttpResult.response 200 "OK" none)).2
      = (none, some ("Network error: " ++ jsonDecodeErrMsg)) ∧
    isParseError ("Network error: " ++ jsonDecodeErrMsg) = false :=
  ⟨rfl, by decide⟩

/-- C3 (amended): for every 2xx response (every status in 200–299) whose
body *decodes as JSON* but does not yield the expected schema (the
subscriptions `data['base']`, `data['date']`, `data['rates']` fail), the
fetch returns a `ParseError` (`"Error: "`-classified) and no unhandled
fault; in particular the body `{"unexpected":"shape"}` yields
`"Error: 'base'"` (the `KeyError`).  A 2xx body that is not valid JSON is
instead classified as `NetworkError` (its `JSONDecodeError` is a
`RequestException`), per the counterexample. -/
theorem parse_error_on_bad_schema :
    ∀ (t : CurrencyTracker) (base now reason : String) (status : ℕ) (j : Json),
      200 ≤ status → status ≤ 299 →
      ((t.get_exchange_rates base now
          (fun _ => HttpResult.response status reason (some j))).2.1 = none →
        ∃ m, (t.get_exchange_rates base now
            (fun _ => HttpResult.response status reason (some j))).2.2
          = some ("Error: " ++ m)) ∧
      (t.get_exchange_rates base now (fun _ => HttpResult.response status reason
          (some (Json.obj [("unexpected", Json.str "shape")])))).2
        = (none, some ("Error: " ++ keyErrorStr "base")) ∧
      (t.get_exchange_rates base now
          (fun _ => HttpResult.response status reason none)).2
        = (none, some ("Network error: " ++ jsonDecodeErrMsg)) := by
  intro t base now reason status j h200 h299
  have hst : ¬ (400 ≤ status ∧ status < 600) := by omega
  refine ⟨?_, ?_, ?_⟩
  · intro hnone
    have hok : doRequest (HttpResult.response status reason (some j)) = Except.ok j := by
      simp [doRequest, hst]
    cases hb : buildSnapshot now j with
    | error e =>
      exact ⟨e, by simp [CurrencyTracker.get_exchange_rates, fetchRatesResult, hok, hb]⟩
    | ok s =>
      exfalso
      have : (t.get_exchange_rates base now
          (fun _ => HttpResult.response status reason (some j))).2.1 = some s := by
        simp [CurrencyTracker.get_exchange_rates, fetchRatesResult, hok, hb]
      rw [this] at hnone
      exact Option.noConfusion hnone
  · have hok : doRequest (HttpResult.response status reason
        (some (Json.obj [("unexpected", Json.str "shape")])))
        = Except.ok (Json.obj [("unexpected", Json.str "shape")]) := by
      simp [doRequest, hst]
    simp [CurrencyTracker.get_exchange_rates, fetchRatesResult, hok, buildSnapshot,
      pySubscript, dictGet, keyErrorStr]
  · simp [CurrencyTracker.get_exchange_rates, fetchRatesResult, doRequest, hst]

/-- Witness for the amended C3 theorem at status 204 (a 2xx status other
than 200) and the JSON body `[]` (decodes, but is not a dict, so the
schema subscriptions fail). -/
theorem parse_error_on_bad_schema_witness :
    (200 ≤ 204 ∧ 204 ≤ 299) ∧
    ∃ m, (CurrencyTracker.init.get_exchange_rates "USD" "now"
        (fun _ => HttpResult.response 204 "No Content" (some (Json.arr [])))).2.2
      = some ("Error: " ++ m) :=
  ⟨by decide,
    (parse_error_on_bad_schema CurrencyTracker.init "USD" "now" "No Content" 204
      (Json.arr []) (by decide) (by decide)).1 rfl⟩

theorem strHasPrefix_append (p m : String) : strHasPrefix p (p ++ m) = true := by
  unfold strHasPrefix
  rw [String.data_append]
  exact List.isPrefixOf_iff_prefix.mpr (List.prefix_append _ _)

theorem buildSnapshot_rates_field (now : String) (j : Json) (s : RatesSnapshot)
    (h : buildSnapshot now j = Except.ok s) : pySubscript j "rates" = Except.ok s.rates := by
  cases h1 : pySubscript j "base" with
  | error e => simp [buildSnapshot, h1] at h
  | ok b =>
    cases h2 : pySubscript j "date" with
    | error e => simp [buildSnapshot, h1, h2] at h
    | ok d =>
      cases h3 : pySubscript j "rates" with
      | error e => simp [buildSnapshot, h1, h2, h3] at h
      | ok r =>
        have hs : ({ base := b, date := d, timestamp := now, rates := r } : RatesSnapshot) = s := by
          simp [buildSnapshot, h1, h2, h3] at h
          exact h
        rw [← hs]

/-- A provider body of the documented shape but with a non-positive rate:
`{"base":"USD","date":"2024-01-15","rates":{"EUR":-1}}`. -/
def negRateBody : Json :=
  Json.obj [("base", Json.str "USD"), ("date", Json.str "2024-01-15"),
    ("rates", Json.obj [("EUR", Json.num (-1))])]

/-- C5 (counterexample): the claim says `fetchRates` never returns a
snapshot containing a non-positive rate.  The code performs no validation
of the rate values: a 200 response whose `rates` member holds `-1` is
returned as a snapshot (with no error) whose rates are not all positive. -/
theorem negative_rate_counterexample :
    (CurrencyTracker.init.get_exchange_rates "USD" "now"
        (fun _ => HttpResult.response 200 "OK" (some negRateBody))).2
      = (some { base := Json.str "USD", date := Json.str "2024-01-15",
                timestamp := "now", rates := Json.obj [("EUR", Json.num (-1))] }, none) ∧
    allRatesPositive (Json.obj [("EUR", Json.num (-1))]) = false :=
  ⟨rfl, by decide⟩

/-- C5 (amended): whenever `get_exchange_rates` returns a snapshot, the
snapshot's `rates` field is the response body's `rates` member copied
verbatim and unvalidated — so its values are all (finite) positive exactly
when the provider body's are (the invariant is a provider convention the
client does not enforce); and whenever it returns no snapshot, the error
is classified (`NetworkError` or `ParseError`), never an unhandled
fault. -/
theorem snapshot_rates_unvalidated :
    (∀ (t : CurrencyTracker) (base now : String) (net : HttpRequest → HttpResult)
        (snap : RatesSnapshot),
      (t.get_exchange_rates base now net).2.1 = some snap →
      ∃ status reason j,
        net (ratesRequest t.api_url base) = HttpResult.response status reason (some j) ∧
        pySubscript j "rates" = Except.ok snap.rates) ∧
    (∀ (t : CurrencyTracker) (base now : String) (net : HttpRequest → HttpResult),
      (t.get_exchange_rates base now net).2.1 = none →
      ∃ m, (t.get_exchange_rates base now net).2.2 = some m ∧
        (isNetworkError m = true ∨ isParseError m = true)) := by
  constructor
  · intro t base now net snap h
    cases hr : net (ratesRequest t.api_url base) with
    | exn msg =>
      simp [CurrencyTracker.get_exchange_rates, fetchRatesResult, doRequest, hr] at h
    | response status reason body =>
      cases body with
      | none =>
        by_cases hst : 400 ≤ status ∧ status < 600 <;>
          simp [CurrencyTracker.get_exchange_rates, fetchRatesResult, doRequest, hr, hst] at h
      | some j =>
        by_cases hst : 400 ≤ status ∧ status < 600
        · simp [CurrencyTracker.get_exchange_rates, fetchRatesResult, doRequest, hr, hst] at h
        · cases hb : buildSnapshot now j with
          | error e =>
            simp [CurrencyTracker.get_exchange_rates, fetchRatesResult, doRequest,
              hr, hst, hb] at h
          | ok s =>
            have hs : s = snap := by
              simp [CurrencyTracker.get_exchange_rates, fetchRatesResult, doRequest,
                hr, hst, hb] at h
              exact h
            exact ⟨status, reason, j, rfl, hs ▸ buildSnapshot_rates_field now j s hb⟩
  · intro t base now net h
    rcases fetchRatesResult_cases t.api_url base now net with ⟨s, he⟩ | ⟨m, he⟩ | ⟨m, he⟩
    · simp [CurrencyTracker.get_exchange_rates, he] at h
    · refine ⟨"Network error: " ++ m, ?_, Or.inl ?_⟩
      · simp [CurrencyTracker.get_exchange_rates, he]
      · exact strHasPrefix_append "Network error: " m
    · refine ⟨"Error: " ++ m, ?_, Or.inr ?_⟩
      · simp [CurrencyTracker.get_exchange_rates, he]
      · exact strHasPrefix_append "Error: " m

/-- Witness for the amended C5 theorem at a well-formed provider body. -/
theorem snapshot_rates_unvalidated_witness :
    ∃ status reason j,
      (fun (_ : HttpRequest) => HttpResult.response 200 "OK" (some sampleBody))
          (ratesRequest CurrencyTracker.init.api_url "USD")
        = HttpResult.response status reason (some j) ∧
      pySubscript j "rates" = Except.ok sampleSnapshot.rates :=
  snapshot_rates_unvalidated.1 CurrencyTracker.init "USD" "now"
    (fun _ => HttpResult.response 200 "OK" (some sampleBody)) sampleSnapshot rfl

/-- C6 (counterexample): the claim says a request exceeding the timeout
yields a NetworkError-classified error for *both* request types.  On the
conversion path a timeout (a `RequestException` caught by the single
`except Exception` handler) is returned as `"Conversion error: ..."`,
which is not in the `NetworkError` (`"Network error: "`) class. -/
theorem conversion_timeout_counterexample :
    (CurrencyTracker.init.get_conversion 100 "USD" "EUR"
        (fun _ => HttpResult.exn "Read timed out. (read timeout=10)")).2
      = (none, some "Conversion error: Read timed out. (read timeout=10)") ∧
    isNetworkError "Conversion error: Read timed out. (read timeout=10)" = false :=
  ⟨rfl, by decide⟩

/-- C6 (amended): both request types are issued with the fixed timeout of
10 time units, and a request that exceeds the bound (the raised timeout
`RequestException`) yields a classified error value rather than a hang —
classified `NetworkError` on the rates path and `ConversionError` on the
conversion path, the message carried verbatim. -/
theorem timeout_fixed_and_classified :
    ∀ (t : CurrencyTracker) (u b now : String) (a : ℚ) (fc tc msg : String),
      (ratesRequest u b).timeout = 10 ∧
      (conversionRequest a fc tc).timeout = 10 ∧
      (t.get_exchange_rates b now (fun _ => HttpResult.exn msg)).2
        = (none, some ("Network error: " ++ msg)) ∧
      (t.get_conversion a fc tc (fun _ => HttpResult.exn msg)).2
        = (none, some ("Conversion error: " ++ msg)) := by
  intro t u b now a fc tc msg
  exact ⟨rfl, rfl, rfl, rfl⟩

/-- C7 (counterexample): the claim counts every non-2xx status as a
failure that must yield a `ConversionError`.  But `get_conversion`'s only
status check is `raise_for_status`, which raises exactly for 400–599: a
final `300 Multiple Choices` response (which requests does not
auto-follow) with a parseable body containing the target-currency key
makes `get_conversion` return the value with no error of any class,
although 300 is not a 2xx status. -/
theorem conversion_status300_counterexample :
    ¬ (200 ≤ 300 ∧ 300 ≤ 299) ∧
    (CurrencyTracker.init.get_conversion 100 "USD" "EUR"
        (fun _ => HttpResult.response 300 "Multiple Choices"
          (some (Json.obj [("rates", Json.obj [("EUR", Json.num 92)])])))).2
      = (some (Json.num 92), none) :=
  ⟨by decide, rfl⟩

/-- C7 (amended): `get_conversion` always returns either a value or a
single `"Conversion error: "`-classified error — and each failure on
the conversion path (transport `RequestException`, 4xx/5xx status — the
statuses `raise_for_status` actually raises for, statuses outside
400–599 not being failed by status, per the counterexample —
undecodable 200 body, missing target-currency key in the rates mapping)
lands in that one class, with no network/parse distinction. -/
theorem conversion_errors_unified :
    ∀ (t : CurrencyTracker) (a : ℚ) (fc tc : String) (net : HttpRequest → HttpResult),
      ((∃ v, (t.get_conversion a fc tc net).2 = (some v, none)) ∨
        (∃ m, (t.get_conversion a fc tc net).2
          = (none, some ("Conversion error: " ++ m)))) ∧
      (∀ msg, (t.get_conversion a fc tc (fun _ => HttpResult.exn msg)).2
        = (none, some ("Conversion error: " ++ msg))) ∧
      (∀ status reason body, 400 ≤ status → status < 600 →
        (t.get_conversion a fc tc (fun _ => HttpResult.response status reason body)).2
          = (none, some ("Conversion error: " ++ httpErrorMsg status reason))) ∧
      (∀ reason, (t.get_conversion a fc tc (fun _ => HttpResult.response 200 reason none)).2
          = (none, some ("Conversion error: " ++ jsonDecodeErrMsg))) ∧
      (∀ reason fields, dictGet fields tc = none →
        (t.get_conversion a fc tc (fun _ => HttpResult.response 200 reason
            (some (Json.obj [("rates", Json.obj fields)])))).2
          = (none, some ("Conversion error: " ++ keyErrorStr tc))) := by
  intro t a fc tc net
  refine ⟨get_conversion_cases t a fc tc net, fun msg => rfl, ?_, fun reason => rfl, ?_⟩
  · intro status reason body h4 h6
    cases body <;>
      simp [CurrencyTracker.get_conversion, conversionAttempt, doRequest, h4, h6]
  · intro reason fields hmiss
    have h1 : pySubscript (Json.obj [("rates", Json.obj fields)]) "rates"
        = Except.ok (Json.obj fields) := rfl
    have h2 : pySubscript (Json.obj fields) tc = Except.error (keyErrorStr tc) := by
      simp [pySubscript, hmiss]
    simp [CurrencyTracker.get_conversion, conversionAttempt, doRequest, h1, h2]

/-- Witness for C7 at a concrete 404 response and a concrete 200 response
whose rates mapping lacks the target currency. -/
theorem conversion_errors_unified_witness :
    (400 ≤ 404 ∧ 404 < 600) ∧ dictGet [] "EUR" = none ∧
    (CurrencyTracker.init.get_conversion 100 "USD" "EUR"
        (fun _ => HttpResult.response 404 "Not Found" none)).2
      = (none, some ("Conversion error: " ++ httpErrorMsg 404 "Not Found")) ∧
    (CurrencyTracker.init.get_conversion 100 "USD" "EUR"
        (fun _ => HttpResult.response 200 "OK"
          (some (Json.obj [("rates", Json.obj [])])))).2
      = (none, some ("Conversion error: " ++ keyErrorStr "EUR")) :=
  ⟨by decide, rfl,
    (conversion_errors_unified CurrencyTracker.init 100 "USD" "EUR"
        (fun _ => HttpResult.exn "")).2.2.1 404 "Not Found" none (by decide) (by decide),
    (conversion_errors_unified CurrencyTracker.init 100 "USD" "EUR"
        (fun _ => HttpResult.exn "")).2.2.2.2 "OK" [] rfl⟩

/-- C8 (counterexample): the claim says `convert(amount, X, X)` yields a
result numerically equal to `amount`.  The code guarantees no such thing:
`get_conversion` has no same-currency short circuit and simply returns the
provider's `rates[to]` value — here the provider answers `42` for an
amount of `100` and the client returns `42` with no error.  The GUI caller
never even issues the request: identical currencies are rejected with a
warning, producing no result at all (not `amount`). -/
theorem convert_same_currency_counterexample :
    (CurrencyTracker.init.get_conversion 100 "USD" "USD"
        (fun _ => HttpResult.response 200 "OK"
          (some (Json.obj [("amount", Json.num 100), ("base", Json.str "USD"),
            ("date", Json.str "2024-01-15"),
            ("rates", Json.obj [("USD", Json.num 42)])])))).2
      = (some (Json.num 42), none) ∧
    Json.num 42 ≠ Json.num 100 ∧
    convert_currency CurrencyTracker.init 100 "USD" "USD"
        (fun _ => HttpResult.exn "never sent")
      = ConvertAction.warningBox "Please select different currencies" := by
  refine ⟨rfl, ?_, rfl⟩
  intro h
  injection h with h2
  exact absurd h2 (by decide)

/-- C8 (amended): the application rejects `from == to` at the caller — the
GUI shows a warning and never calls `get_conversion` — and the client
itself applies no same-currency special case: its outcome is determined
entirely by the provider's response, independent of `amount` (which only
parameterizes the request URL), so no numeric equality with `amount` is
guaranteed by the code. -/
theorem convert_same_currency_guarded :
    (∀ (t : CurrencyTracker) (a : ℚ) (x : String) (net : HttpRequest → HttpResult),
      convert_currency t a x x net
        = ConvertAction.warningBox "Please select different currencies") ∧
    (∀ (t : CurrencyTracker) (fc tc : String) (o : HttpResult) (a a2 : ℚ),
      (t.get_conversion a fc tc (fun _ => o)).2
        = (t.get_conversion a2 fc tc (fun _ => o)).2) := by
  constructor
  · intro t a x net
    simp [convert_currency]
  · intro t fc tc o a a2
    rfl
